import Mathlib

/-!
Verification development for the WireGuard VPN performance analyzer
(`tools/vpn_analyzer.py`).

The source is a Python script whose computational core joins two mappings
of test records (a baseline run and a VPN run) by test name, derives
overhead/efficiency metrics, and classifies them into quality tiers.

Embedding choices:
* Python dicts become association lists `List (String × _)`; insertion
  order is preserved and key uniqueness, where needed, is an explicit
  `Nodup` hypothesis (Python dict keys are unique).
* Numbers become `ℚ` (exact arithmetic standing in for Python floats).
* A JSON test record becomes a structure of `Option ℚ` fields; a missing
  key is `none`.  Subscript access `rec["field"]` raises `KeyError` when
  the key is missing, and `x / 0` raises `ZeroDivisionError` (Python
  raises for floats as well as ints); both are modelled with `Except`.
-/

deriving instance DecidableEq for Except

namespace VPNTesting

/-- Python `s.startswith(pre)`: `pre` is a character-wise prefix of `s`. -/
def pyStartswith (s pre : String) : Bool :=
  pre.data.isPrefixOf s.data

/-- Python exceptions that the analysis code can raise. -/
inductive PyError where
  | keyError (field : String)
  | zeroDivisionError
deriving DecidableEq

/-- A parsed JSON test record, as produced by `load_test_data`.  Latency
records carry the `avg/min/max_ping_ms` and `packet_loss_percent` keys,
bandwidth records carry `bandwidth_mbps` and optionally `direction`; a
field that the underlying JSON object lacks is `none`. -/
structure TestRecord where
  avg_ping_ms : Option ℚ
  min_ping_ms : Option ℚ
  max_ping_ms : Option ℚ
  packet_loss_percent : Option ℚ
  bandwidth_mbps : Option ℚ
  direction : Option String
deriving DecidableEq

/-- The record with no keys at all, convenient for building concrete
test inputs. -/
def emptyRec : TestRecord :=
  { avg_ping_ms := none, min_ping_ms := none, max_ping_ms := none,
    packet_loss_percent := none, bandwidth_mbps := none, direction := none }

/-- The `data` dictionary built by `load_test_data`: a `baseline` and a
`vpn` mapping, each keyed by test name. -/
structure Data where
  baseline : List (String × TestRecord)
  vpn : List (String × TestRecord)
deriving DecidableEq

/-- One entry of the mapping returned by `analyze_latency`
(source lines 82–93). -/
structure LatencyComparison where
  baseline_avg : ℚ
  vpn_avg : ℚ
  overhead_ms : ℚ
  overhead_percent : ℚ
  baseline_min : ℚ
  baseline_max : ℚ
  vpn_min : ℚ
  vpn_max : ℚ
  baseline_loss : ℚ
  vpn_loss : ℚ
deriving DecidableEq

/-- One entry of the mapping returned by `analyze_bandwidth`
(source lines 114–120).  The field `bandwidth_ratio_val` models the
source's `bandwidth_ratio` key and `loss_percent_val` its
`bandwidth_loss_percent` key. -/
structure BandwidthComparison where
  baseline_mbps : ℚ
  vpn_mbps : ℚ
  bandwidth_ratio_val : ℚ
  loss_percent_val : ℚ
  direction : String
deriving DecidableEq

/-- Python subscript access `rec["field"]`: the value when present,
`KeyError` otherwise. -/
def getField (v : Option ℚ) (field : String) : Except PyError ℚ :=
  match v with
  | some x => .ok x
  | none => .error (.keyError field)

/-- Python division `a / b`: raises `ZeroDivisionError` when `b == 0`
(for Python ints and floats alike). -/
def pyDiv (a b : ℚ) : Except PyError ℚ :=
  if b = 0 then .error .zeroDivisionError else .ok (a / b)

/-- The body of the `analyze_latency` loop for one matched pair
(source lines 75–93): reads the averages, computes
`overhead_ms = vpn.avg − baseline.avg` and
`overhead_percent = overhead_ms / baseline.avg * 100`, then copies the
remaining fields into the comparison entry. -/
def latencyEntry (baseline vpn : TestRecord) : Except PyError LatencyComparison :=
  match getField vpn.avg_ping_ms "avg_ping_ms",
        getField baseline.avg_ping_ms "avg_ping_ms" with
  | .error e, _ => .error e
  | _, .error e => .error e
  | .ok vavg, .ok bavg =>
    match pyDiv (vavg - bavg) bavg with
    | .error e => .error e
    | .ok q =>
      match getField baseline.min_ping_ms "min_ping_ms",
            getField baseline.max_ping_ms "max_ping_ms",
            getField vpn.min_ping_ms "min_ping_ms",
            getField vpn.max_ping_ms "max_ping_ms",
            getField baseline.packet_loss_percent "packet_loss_percent",
            getField vpn.packet_loss_percent "packet_loss_percent" with
      | .error e, _, _, _, _, _ => .error e
      | _, .error e, _, _, _, _ => .error e
      | _, _, .error e, _, _, _ => .error e
      | _, _, _, .error e, _, _ => .error e
      | _, _, _, _, .error e, _ => .error e
      | _, _, _, _, _, .error e => .error e
      | .ok bmin, .ok bmax, .ok vmin, .ok vmax, .ok bloss, .ok vloss =>
        .ok { baseline_avg := bavg, vpn_avg := vavg,
              overhead_ms := vavg - bavg, overhead_percent := q * 100,
              baseline_min := bmin, baseline_max := bmax,
              vpn_min := vmin, vpn_max := vmax,
              baseline_loss := bloss, vpn_loss := vloss }

/-- The body of the `analyze_bandwidth` loop for one matched pair
(source lines 107–120): `bandwidth_ratio = vpn.mbps / baseline.mbps`,
`bandwidth_loss_percent = (1 − ratio) * 100`, and `direction` taken from
the baseline record via `.get("direction", "unknown")`. -/
def bandwidthEntry (baseline vpn : TestRecord) : Except PyError BandwidthComparison :=
  match getField vpn.bandwidth_mbps "bandwidth_mbps",
        getField baseline.bandwidth_mbps "bandwidth_mbps" with
  | .error e, _ => .error e
  | _, .error e => .error e
  | .ok vmbps, .ok bmbps =>
    match pyDiv vmbps bmbps with
    | .error e => .error e
    | .ok r =>
      .ok { baseline_mbps := bmbps, vpn_mbps := vmbps,
            bandwidth_ratio_val := r, loss_percent_val := (1 - r) * 100,
            direction := baseline.direction.getD "unknown" }

/-- The shared shape of the two analysis loops (source lines 73–93 and
105–120): iterate over the prefix-filtered baseline entries in order;
for a name also present in the filtered VPN mapping compute the
comparison entry (propagating any raised exception), otherwise skip the
name silently. -/
def joinLoop {β : Type} (entry : TestRecord → TestRecord → Except PyError β)
    (vpnFiltered : List (String × TestRecord)) :
    List (String × TestRecord) → Except PyError (List (String × β))
  | [] => .ok []
  | (test_name, b) :: rest =>
    match vpnFiltered.lookup test_name with
    | none => joinLoop entry vpnFiltered rest
    | some v =>
      match entry b v with
      | .error e => .error e
      | .ok c =>
        match joinLoop entry vpnFiltered rest with
        | .error e => .error e
        | .ok others => .ok ((test_name, c) :: others)

/-- `analyze_latency` (source lines 65–95): restrict both sides to names
starting with `ping_`, then inner-join by test name. -/
def analyze_latency (data : Data) : Except PyError (List (String × LatencyComparison)) :=
  joinLoop latencyEntry
    (data.vpn.filter fun kv => pyStartswith kv.1 "ping_")
    (data.baseline.filter fun kv => pyStartswith kv.1 "ping_")

/-- `analyze_bandwidth` (source lines 97–122): restrict both sides to
names starting with `iperf_`, then inner-join by test name. -/
def analyze_bandwidth (data : Data) : Except PyError (List (String × BandwidthComparison)) :=
  joinLoop bandwidthEntry
    (data.vpn.filter fun kv => pyStartswith kv.1 "iperf_")
    (data.baseline.filter fun kv => pyStartswith kv.1 "iperf_")

/-- The three quality tiers written by `generate_summary_report`. -/
inductive Rating where
  | EXCELLENT
  | GOOD
  | NEEDS_IMPROVEMENT
deriving DecidableEq

/-- The per-test latency rating of `generate_summary_report`
(source lines 258–263). -/
def latencyRating (overhead_percent : ℚ) : Rating :=
  if overhead_percent < 10 then .EXCELLENT
  else if overhead_percent < 25 then .GOOD
  else .NEEDS_IMPROVEMENT

/-- The per-test bandwidth rating of `generate_summary_report`
(source lines 279–284). -/
def bandwidthRating (r : ℚ) : Rating :=
  if r > 0.8 then .EXCELLENT
  else if r > 0.6 then .GOOD
  else .NEEDS_IMPROVEMENT

/-- `np.mean` over the collected values (source lines 294–295). -/
def npMean (xs : List ℚ) : ℚ := xs.sum / (xs.length : ℚ)

/-- The overall rating computed from the two averages
(source lines 300–305). -/
def overallRating (avg_latency_overhead avg_bandwidth_efficiency : ℚ) : Rating :=
  if avg_latency_overhead < 10 ∧ avg_bandwidth_efficiency > 0.8 then .EXCELLENT
  else if avg_latency_overhead < 25 ∧ avg_bandwidth_efficiency > 0.6 then .GOOD
  else .NEEDS_IMPROVEMENT

/-- Abstraction of the text report written by `generate_summary_report`:
which per-test ratings each section prints, whether a section prints its
"No … data available" notice, and the overall assessment (`none` models
the "Insufficient data for overall assessment" line). -/
structure Report where
  latencyRatings : List (String × Rating)
  latencyNoData : Bool
  bandwidthRatings : List (String × Rating)
  bandwidthNoData : Bool
  overall : Option Rating
deriving DecidableEq

/-- `generate_summary_report` (source lines 238–311), restricted to the
decisions the report text records: per-test ratings when a section has
data, the "no data" notices, and the overall assessment, which is only
computed when both mappings are non-empty (Python truthiness of the two
dicts, line 293). -/
def generate_summary_report (latency_data : List (String × LatencyComparison))
    (bandwidth_data : List (String × BandwidthComparison)) : Report :=
  { latencyRatings :=
      latency_data.map fun kv => (kv.1, latencyRating kv.2.overhead_percent),
    latencyNoData := latency_data.isEmpty,
    bandwidthRatings :=
      bandwidth_data.map fun kv => (kv.1, bandwidthRating kv.2.bandwidth_ratio_val),
    bandwidthNoData := bandwidth_data.isEmpty,
    overall :=
      if latency_data.isEmpty || bandwidth_data.isEmpty then none
      else
        some (overallRating
          (npMean (latency_data.map fun kv => kv.2.overhead_percent))
          (npMean (bandwidth_data.map fun kv => kv.2.bandwidth_ratio_val))) }

/-! ### Association-list helpers -/

theorem lookup_mem {α : Type} {l : List (String × α)} {k : String} {a : α}
    (h : l.lookup k = some a) : (k, a) ∈ l := by
  induction l with
  | nil => simp at h
  | cons kv rest ih =>
    obtain ⟨name, b⟩ := kv
    rw [List.lookup_cons] at h
    cases hkn : k == name with
    | true =>
      rw [hkn] at h
      obtain rfl := eq_of_beq hkn
      obtain rfl : b = a := by simpa using h
      exact List.mem_cons_self _ _
    | false =>
      rw [hkn] at h
      exact List.mem_cons_of_mem _ (ih h)

theorem lookup_eq_none_of_not_mem_keys {α : Type} {l : List (String × α)} {k : String}
    (h : k ∉ l.map Prod.fst) : l.lookup k = none := by
  induction l with
  | nil => simp
  | cons kv rest ih =>
    obtain ⟨name, b⟩ := kv
    simp only [List.map_cons, List.mem_cons, not_or] at h
    rw [List.lookup_cons]
    have hkn : (k == name) = false := beq_eq_false_iff_ne.mpr h.1
    rw [hkn]
    exact ih h.2

theorem lookup_filter_key_pos {α : Type} (p : String → Bool) (l : List (String × α))
    (k : String) (hk : p k = true) :
    (l.filter fun kv => p kv.1).lookup k = l.lookup k := by
  induction l with
  | nil => simp
  | cons kv rest ih =>
    obtain ⟨name, b⟩ := kv
    by_cases hn : p name = true
    · simp only [List.filter_cons, hn, if_true, List.lookup_cons, ih]
    · have hkn : (k == name) = false := by
        apply beq_eq_false_iff_ne.mpr
        intro heq
        exact hn (heq ▸ hk)
      simp only [List.filter_cons, hn, if_false, Bool.false_eq_true, List.lookup_cons, hkn, ih]

theorem lookup_filter_key_neg {α : Type} (p : String → Bool) (l : List (String × α))
    (k : String) (hk : p k = false) :
    (l.filter fun kv => p kv.1).lookup k = none := by
  apply lookup_eq_none_of_not_mem_keys
  intro hmem
  obtain ⟨⟨name, b⟩, hin, rfl⟩ := List.mem_map.mp hmem
  have := (List.mem_filter.mp hin).2
  simp only at this
  rw [hk] at this
  exact Bool.false_ne_true this

theorem keys_filter_nodup {α : Type} (p : String → Bool) {l : List (String × α)}
    (h : (l.map Prod.fst).Nodup) :
    ((l.filter fun kv => p kv.1).map Prod.fst).Nodup :=
  h.sublist ((List.filter_sublist l).map Prod.fst)

/-- `lookup_filter_key_pos` specialised to the prefix filters that the
analyzers use (avoids higher-order unification at use sites). -/
theorem lookup_filter_sw_pos {α : Type} (pre : String) (l : List (String × α))
    (k : String) (hk : pyStartswith k pre = true) :
    (l.filter fun kv => pyStartswith kv.1 pre).lookup k = l.lookup k :=
  lookup_filter_key_pos (fun s => pyStartswith s pre) l k hk

/-- `lookup_filter_key_neg` specialised to the prefix filters that the
analyzers use. -/
theorem lookup_filter_sw_neg {α : Type} (pre : String) (l : List (String × α))
    (k : String) (hk : pyStartswith k pre = false) :
    (l.filter fun kv => pyStartswith kv.1 pre).lookup k = none :=
  lookup_filter_key_neg (fun s => pyStartswith s pre) l k hk

/-- `keys_filter_nodup` specialised to the prefix filters that the
analyzers use. -/
theorem keys_filter_sw_nodup {α : Type} (pre : String) {l : List (String × α)}
    (h : (l.map Prod.fst).Nodup) :
    ((l.filter fun kv => pyStartswith kv.1 pre).map Prod.fst).Nodup :=
  keys_filter_nodup (fun s => pyStartswith s pre) h

/-! ### Properties of the shared join loop -/

theorem joinLoop_keys_sublist {β : Type} (entry : TestRecord → TestRecord → Except PyError β)
    (vm : List (String × TestRecord)) :
    ∀ {l : List (String × TestRecord)} {m : List (String × β)},
      joinLoop entry vm l = .ok m → (m.map Prod.fst).Sublist (l.map Prod.fst) := by
  intro l
  induction l with
  | nil =>
    intro m h
    obtain rfl : ([] : List (String × β)) = m := by simpa [joinLoop] using h
    simp
  | cons kv rest ih =>
    intro m h
    obtain ⟨name, b⟩ := kv
    cases hv : vm.lookup name with
    | none =>
      simp only [joinLoop, hv] at h
      exact (ih h).trans (List.sublist_cons_self _ _)
    | some v =>
      cases he : entry b v with
      | error e =>
        simp only [joinLoop, hv, he] at h
        exact Except.noConfusion h
      | ok c =>
        cases hr : joinLoop entry vm rest with
        | error e =>
          simp only [joinLoop, hv, he, hr] at h
          exact Except.noConfusion h
        | ok others =>
          simp only [joinLoop, hv, he, hr, Except.ok.injEq] at h
          obtain rfl : (name, c) :: others = m := h
          simpa using (ih hr).cons₂ name

theorem joinLoop_entry_ok {β : Type} (entry : TestRecord → TestRecord → Except PyError β)
    (vm : List (String × TestRecord)) :
    ∀ {l : List (String × TestRecord)} {m : List (String × β)},
      joinLoop entry vm l = .ok m →
      ∀ {k : String} {b v : TestRecord}, (k, b) ∈ l → vm.lookup k = some v →
        ∃ c, entry b v = .ok c := by
  intro l
  induction l with
  | nil => intro m _ k b v hmem; cases hmem
  | cons kv rest ih =>
    intro m h k b v hmem hvk
    obtain ⟨name, b0⟩ := kv
    rcases List.mem_cons.mp hmem with heq | hmem'
    · injection heq with h1 h2
      subst h1
      subst h2
      cases he : entry b v with
      | error e =>
        simp only [joinLoop, hvk, he] at h
        exact Except.noConfusion h
      | ok c => exact ⟨c, rfl⟩
    · cases hv : vm.lookup name with
      | none =>
        simp only [joinLoop, hv] at h
        exact ih h hmem' hvk
      | some v0 =>
        cases he : entry b0 v0 with
        | error e =>
          simp only [joinLoop, hv, he] at h
          exact Except.noConfusion h
        | ok c =>
          cases hr : joinLoop entry vm rest with
          | error e =>
            simp only [joinLoop, hv, he, hr] at h
            exact Except.noConfusion h
          | ok others => exact ih hr hmem' hvk

theorem joinLoop_lookup {β : Type} (entry : TestRecord → TestRecord → Except PyError β)
    (vm : List (String × TestRecord)) :
    ∀ {l : List (String × TestRecord)}, (l.map Prod.fst).Nodup →
      ∀ {m : List (String × β)}, joinLoop entry vm l = .ok m →
      ∀ k : String,
        m.lookup k =
          (l.lookup k).bind fun b => (vm.lookup k).bind fun v => (entry b v).toOption := by
  intro l
  induction l with
  | nil =>
    intro _ m h k
    obtain rfl : ([] : List (String × β)) = m := by simpa [joinLoop] using h
    simp
  | cons kv rest ih =>
    intro hnd m h k
    obtain ⟨name, b0⟩ := kv
    simp only [List.map_cons, List.nodup_cons] at hnd
    obtain ⟨hname, hndr⟩ := hnd
    cases hv : vm.lookup name with
    | none =>
      simp only [joinLoop, hv] at h
      cases hkn : k == name with
      | true =>
        obtain rfl := eq_of_beq hkn
        have hnone : m.lookup k = none := by
          apply lookup_eq_none_of_not_mem_keys
          intro hmem
          exact hname ((joinLoop_keys_sublist entry vm h).mem hmem)
        rw [hnone, List.lookup_cons, hkn, hv]
        simp
      | false =>
        rw [List.lookup_cons, hkn]
        exact ih hndr h k
    | some v =>
      cases he : entry b0 v with
      | error e =>
        simp only [joinLoop, hv, he] at h
        exact Except.noConfusion h
      | ok c =>
        cases hr : joinLoop entry vm rest with
        | error e =>
          simp only [joinLoop, hv, he, hr] at h
          exact Except.noConfusion h
        | ok others =>
          simp only [joinLoop, hv, he, hr, Except.ok.injEq] at h
          obtain rfl : (name, c) :: others = m := h
          cases hkn : k == name with
          | true =>
            obtain rfl := eq_of_beq hkn
            rw [List.lookup_cons, List.lookup_cons, hkn, hv]
            simp [he, Except.toOption]
          | false =>
            rw [List.lookup_cons, List.lookup_cons, hkn]
            exact ih hndr hr k

/-! ### What a successful per-pair computation guarantees -/

theorem latencyEntry_ok_spec {b v : TestRecord} {c : LatencyComparison}
    (h : latencyEntry b v = .ok c) :
    b.avg_ping_ms = some c.baseline_avg ∧ v.avg_ping_ms = some c.vpn_avg ∧
    c.baseline_avg ≠ 0 ∧
    c.overhead_ms = c.vpn_avg - c.baseline_avg ∧
    c.overhead_percent = (c.vpn_avg - c.baseline_avg) / c.baseline_avg * 100 := by
  obtain ⟨ba, bmi, bma, bl, bbw, bd⟩ := b
  obtain ⟨va, vmi, vma, vl, vbw, vd⟩ := v
  rcases va with _ | vavg
  · simp [latencyEntry, getField] at h
  rcases ba with _ | bavg
  · simp [latencyEntry, getField] at h
  by_cases h0 : bavg = 0
  · simp [latencyEntry, getField, pyDiv, h0] at h
  rcases bmi with _ | x1 <;> rcases bma with _ | x2 <;> rcases vmi with _ | x3 <;>
    rcases vma with _ | x4 <;> rcases bl with _ | x5 <;> rcases vl with _ | x6 <;>
    simp [latencyEntry, getField, pyDiv, h0] at h
  obtain rfl := h.symm
  simp [h0]

theorem bandwidthEntry_ok_spec {b v : TestRecord} {c : BandwidthComparison}
    (h : bandwidthEntry b v = .ok c) :
    b.bandwidth_mbps = some c.baseline_mbps ∧ v.bandwidth_mbps = some c.vpn_mbps ∧
    c.baseline_mbps ≠ 0 ∧
    c.bandwidth_ratio_val = c.vpn_mbps / c.baseline_mbps ∧
    c.loss_percent_val = (1 - c.bandwidth_ratio_val) * 100 ∧
    c.direction = b.direction.getD "unknown" := by
  obtain ⟨ba, bmi, bma, bl, bbw, bd⟩ := b
  obtain ⟨va, vmi, vma, vl, vbw, vd⟩ := v
  rcases vbw with _ | vmbps
  · simp [bandwidthEntry, getField] at h
  rcases bbw with _ | bmbps
  · simp [bandwidthEntry, getField] at h
  by_cases h0 : bmbps = 0
  · simp [bandwidthEntry, getField, pyDiv, h0] at h
  simp [bandwidthEntry, getField, pyDiv, h0] at h
  obtain rfl := h.symm
  simp [h0]

theorem latencyEntry_zero {b v : TestRecord} (h0 : b.avg_ping_ms = some 0)
    (c : LatencyComparison) : latencyEntry b v ≠ .ok c := by
  intro h
  obtain ⟨hb, _, hne, _, _⟩ := latencyEntry_ok_spec h
  rw [h0] at hb
  exact hne (Option.some_injective _ hb).symm

theorem bandwidthEntry_zero {b v : TestRecord} (h0 : b.bandwidth_mbps = some 0)
    (c : BandwidthComparison) : bandwidthEntry b v ≠ .ok c := by
  intro h
  obtain ⟨hb, _, hne, _, _, _⟩ := bandwidthEntry_ok_spec h
  rw [h0] at hb
  exact hne (Option.some_injective _ hb).symm

/-- The inner-join membership behaviour shared by both analyzers: the
result has an entry for `k` exactly when `k` satisfies the name
convention and both input mappings contain `k` (assuming the analysis
returned normally). -/
theorem joinLoop_lookup_isSome {β : Type} (entry : TestRecord → TestRecord → Except PyError β)
    (data : Data) (p : String → Bool) {m : List (String × β)}
    (hnd : (data.baseline.map Prod.fst).Nodup)
    (h : joinLoop entry (data.vpn.filter fun kv => p kv.1)
          (data.baseline.filter fun kv => p kv.1) = .ok m)
    (k : String) :
    (m.lookup k).isSome ↔
      p k = true ∧ (data.baseline.lookup k).isSome ∧ (data.vpn.lookup k).isSome := by
  have hm := joinLoop_lookup entry _ (keys_filter_nodup p hnd) h k
  constructor
  · intro hs
    rw [hm] at hs
    rcases hb : (data.baseline.filter fun kv => p kv.1).lookup k with _ | b
    · rw [hb] at hs; simp at hs
    rcases hv : (data.vpn.filter fun kv => p kv.1).lookup k with _ | v
    · rw [hb, hv] at hs; simp at hs
    cases hp : p k with
    | false =>
      rw [lookup_filter_key_neg p data.baseline k hp] at hb
      cases hb
    | true =>
      rw [lookup_filter_key_pos p data.baseline k hp] at hb
      rw [lookup_filter_key_pos p data.vpn k hp] at hv
      exact ⟨rfl, by rw [hb]; rfl, by rw [hv]; rfl⟩
  · rintro ⟨hp, hbs, hvs⟩
    obtain ⟨b, hb⟩ := Option.isSome_iff_exists.mp hbs
    obtain ⟨v, hv⟩ := Option.isSome_iff_exists.mp hvs
    have hbf : (data.baseline.filter fun kv => p kv.1).lookup k = some b := by
      rw [lookup_filter_key_pos p data.baseline k hp]; exact hb
    have hvf : (data.vpn.filter fun kv => p kv.1).lookup k = some v := by
      rw [lookup_filter_key_pos p data.vpn k hp]; exact hv
    obtain ⟨c, hc⟩ := joinLoop_entry_ok entry _ h (lookup_mem hbf) hvf
    rw [hm, hbf, hvf]
    simp [hc, Except.toOption]

/-- `joinLoop_lookup_isSome` specialised to the prefix filters that the
analyzers use. -/
theorem joinLoop_lookup_isSome_sw {β : Type}
    (entry : TestRecord → TestRecord → Except PyError β)
    (data : Data) (pre : String) {m : List (String × β)}
    (hnd : (data.baseline.map Prod.fst).Nodup)
    (h : joinLoop entry (data.vpn.filter fun kv => pyStartswith kv.1 pre)
          (data.baseline.filter fun kv => pyStartswith kv.1 pre) = .ok m)
    (k : String) :
    (m.lookup k).isSome ↔
      pyStartswith k pre = true ∧
        (data.baseline.lookup k).isSome ∧ (data.vpn.lookup k).isSome :=
  joinLoop_lookup_isSome entry data (fun s => pyStartswith s pre) hnd h k

/-! ### State-passing form of the analyzers

The two analysis functions read their input mappings and write only to
the local `results` dictionary.  To state the frame property this form
threads the caller's `data` store through every step the source
performs; the loop body appends to the local accumulator and leaves the
store untouched, exactly as the Python statements do. -/

/-- State-passing version of `joinLoop`: `store` is the caller's `data`
structure (the loop only reads it through the pre-computed filtered
mappings), `results` is the local accumulator that
`results[test_name] = …` appends to. -/
def joinLoopSt {β : Type} (entry : TestRecord → TestRecord → Except PyError β)
    (vpnFiltered : List (String × TestRecord)) :
    List (String × TestRecord) → Data → List (String × β) →
      Except PyError (Data × List (String × β))
  | [], store, results => .ok (store, results)
  | (test_name, b) :: rest, store, results =>
    match vpnFiltered.lookup test_name with
    | none => joinLoopSt entry vpnFiltered rest store results
    | some v =>
      match entry b v with
      | .error e => .error e
      | .ok c => joinLoopSt entry vpnFiltered rest store (results ++ [(test_name, c)])

/-- `analyze_latency`, with the caller's `data` store threaded through
and returned alongside the freshly built result mapping. -/
def analyze_latency_st (store : Data) :
    Except PyError (Data × List (String × LatencyComparison)) :=
  joinLoopSt latencyEntry
    (store.vpn.filter fun kv => pyStartswith kv.1 "ping_")
    (store.baseline.filter fun kv => pyStartswith kv.1 "ping_")
    store []

/-- `analyze_bandwidth`, with the caller's `data` store threaded through
and returned alongside the freshly built result mapping. -/
def analyze_bandwidth_st (store : Data) :
    Except PyError (Data × List (String × BandwidthComparison)) :=
  joinLoopSt bandwidthEntry
    (store.vpn.filter fun kv => pyStartswith kv.1 "iperf_")
    (store.baseline.filter fun kv => pyStartswith kv.1 "iperf_")
    store []

theorem joinLoopSt_ok_iff {β : Type} (entry : TestRecord → TestRecord → Except PyError β)
    (vm : List (String × TestRecord)) :
    ∀ (l : List (String × TestRecord)) (store : Data) (acc : List (String × β))
      (out : Data × List (String × β)),
      joinLoopSt entry vm l store acc = .ok out ↔
        out.1 = store ∧ ∃ r, joinLoop entry vm l = .ok r ∧ out.2 = acc ++ r := by
  intro l
  induction l with
  | nil =>
    intro store acc out
    obtain ⟨outs, outr⟩ := out
    constructor
    · intro h
      obtain ⟨rfl, rfl⟩ : store = outs ∧ acc = outr := by
        simpa [joinLoopSt, Prod.ext_iff] using h
      exact ⟨rfl, [], rfl, by simp⟩
    · rintro ⟨h1, r, hr, h2⟩
      obtain rfl : ([] : List (String × β)) = r := by simpa [joinLoop] using hr
      simp only at h1 h2
      subst h1
      simp only [List.append_nil] at h2
      subst h2
      rfl
  | cons kv rest ih =>
    intro store acc out
    obtain ⟨name, b⟩ := kv
    cases hv : vm.lookup name with
    | none =>
      simp only [joinLoopSt, joinLoop, hv]
      exact ih store acc out
    | some v =>
      cases he : entry b v with
      | error e =>
        simp only [joinLoopSt, joinLoop, hv, he]
        constructor
        · intro h; exact Except.noConfusion h
        · rintro ⟨_, r, hr, _⟩; exact Except.noConfusion hr
      | ok c =>
        simp only [joinLoopSt, joinLoop, hv, he]
        rw [ih store (acc ++ [(name, c)]) out]
        constructor
        · rintro ⟨h1, r, hr, h2⟩
          cases hjr : joinLoop entry vm rest with
          | error e => rw [hjr] at hr; exact Except.noConfusion hr
          | ok others =>
            rw [hjr] at hr
            obtain rfl : others = r := by simpa using hr
            exact ⟨h1, (name, c) :: others, rfl, by simp [h2]⟩
        · rintro ⟨h1, r, hr, h2⟩
          cases hjr : joinLoop entry vm rest with
          | error e => rw [hjr] at hr; exact Except.noConfusion hr
          | ok others =>
            rw [hjr] at hr
            obtain rfl : (name, c) :: others = r := by simpa using hr
            exact ⟨h1, others, rfl, by simp [h2]⟩

/-! ### Concrete sample inputs used by the witnesses -/

def pingBase : TestRecord :=
  { avg_ping_ms := some 20, min_ping_ms := some 18, max_ping_ms := some 25,
    packet_loss_percent := some 0, bandwidth_mbps := none, direction := none }

def pingVpn : TestRecord :=
  { avg_ping_ms := some 22, min_ping_ms := some 19, max_ping_ms := some 30,
    packet_loss_percent := some 1, bandwidth_mbps := none, direction := none }

def iperfBase : TestRecord :=
  { avg_ping_ms := none, min_ping_ms := none, max_ping_ms := none,
    packet_loss_percent := none, bandwidth_mbps := some 500, direction := some "download" }

def iperfVpn : TestRecord :=
  { avg_ping_ms := none, min_ping_ms := none, max_ping_ms := none,
    packet_loss_percent := none, bandwidth_mbps := some 450, direction := some "upload" }

/-- A small run with one matched latency pair, one matched bandwidth
pair, and one unmatched name on each side. -/
def sampleData : Data :=
  { baseline := [("ping_google", pingBase), ("iperf_tcp", iperfBase), ("ping_solo", pingBase)]
    vpn := [("ping_google", pingVpn), ("iperf_tcp", iperfVpn), ("iperf_lone", iperfVpn)] }

def pingCmp : LatencyComparison :=
  { baseline_avg := 20, vpn_avg := 22, overhead_ms := 2, overhead_percent := 10,
    baseline_min := 18, baseline_max := 25, vpn_min := 19, vpn_max := 30,
    baseline_loss := 0, vpn_loss := 1 }

def iperfCmp : BandwidthComparison :=
  { baseline_mbps := 500, vpn_mbps := 450, bandwidth_ratio_val := 9 / 10,
    loss_percent_val := 10, direction := "download" }

theorem analyze_latency_sample :
    analyze_latency sampleData = .ok [("ping_google", pingCmp)] := by
  have h1 : pyStartswith "ping_google" "ping_" = true := by decide
  have h2 : pyStartswith "iperf_tcp" "ping_" = false := by decide
  have h3 : pyStartswith "ping_solo" "ping_" = true := by decide
  have h4 : pyStartswith "iperf_lone" "ping_" = false := by decide
  have h5 : ("ping_google" == "ping_google") = true := by decide
  have h6 : ("ping_solo" == "ping_google") = false := by decide
  have h0 : (20 : ℚ) ≠ 0 := by norm_num
  simp only [analyze_latency, sampleData, List.filter_cons, List.filter_nil,
    h1, h2, h3, h4, if_true, if_false, Bool.false_eq_true, joinLoop,
    List.lookup_cons, List.lookup_nil, h5, h6, latencyEntry, getField,
    pingBase, pingVpn, pyDiv, if_neg h0, pingCmp]
  norm_num

theorem analyze_bandwidth_sample :
    analyze_bandwidth sampleData = .ok [("iperf_tcp", iperfCmp)] := by
  have h1 : pyStartswith "ping_google" "iperf_" = false := by decide
  have h2 : pyStartswith "iperf_tcp" "iperf_" = true := by decide
  have h3 : pyStartswith "ping_solo" "iperf_" = false := by decide
  have h4 : pyStartswith "iperf_lone" "iperf_" = true := by decide
  have h5 : ("iperf_tcp" == "iperf_tcp") = true := by decide
  have h0 : (500 : ℚ) ≠ 0 := by norm_num
  simp only [analyze_bandwidth, sampleData, List.filter_cons, List.filter_nil,
    h1, h2, h3, h4, if_true, if_false, Bool.false_eq_true, joinLoop,
    List.lookup_cons, List.lookup_nil, h5, bandwidthEntry, getField,
    iperfBase, iperfVpn, pyDiv, if_neg h0, iperfCmp]
  norm_num

/-! ### The claims -/

/-- Claim C1: for every matched latency pair (a test name present in
both the baseline and VPN mappings, with `baseline.avg > 0`), the
comparison entry produced by `analyze_latency` satisfies
`overhead_ms = vpn.avg − baseline.avg` and
`overhead_percent = overhead_ms / baseline.avg * 100`. -/
theorem analyze_latency_overhead_formula (data : Data)
    (m : List (String × LatencyComparison)) (k : String) (c : LatencyComparison)
    (b v : TestRecord) (bavg vavg : ℚ)
    (hnd : (data.baseline.map Prod.fst).Nodup)
    (hok : analyze_latency data = .ok m)
    (hb : data.baseline.lookup k = some b)
    (hv : data.vpn.lookup k = some v)
    (hba : b.avg_ping_ms = some bavg)
    (hva : v.avg_ping_ms = some vavg)
    (hpos : 0 < bavg)
    (hc : m.lookup k = some c) :
    c.overhead_ms = vavg - bavg ∧
    c.overhead_percent = c.overhead_ms / bavg * 100 := by
  have hok' : joinLoop latencyEntry
      (data.vpn.filter fun kv => pyStartswith kv.1 "ping_")
      (data.baseline.filter fun kv => pyStartswith kv.1 "ping_") = .ok m := hok
  have hm := joinLoop_lookup latencyEntry
    (data.vpn.filter fun kv => pyStartswith kv.1 "ping_")
    (keys_filter_sw_nodup "ping_" hnd) hok' k
  rw [hc] at hm
  cases hp : pyStartswith k "ping_" with
  | false =>
    rw [lookup_filter_sw_neg "ping_" data.baseline k hp] at hm
    simp at hm
  | true =>
    rw [lookup_filter_sw_pos "ping_" data.baseline k hp, hb,
        lookup_filter_sw_pos "ping_" data.vpn k hp, hv] at hm
    simp only [Option.some_bind] at hm
    cases he : latencyEntry b v with
    | error e => rw [he] at hm; simp [Except.toOption] at hm
    | ok c0 =>
      rw [he] at hm
      simp only [Option.some_bind, Except.toOption, Option.some.injEq] at hm
      subst hm
      obtain ⟨hb', hv', hne, hoh, hop⟩ := latencyEntry_ok_spec he
      rw [hba] at hb'
      rw [hva] at hv'
      obtain rfl : bavg = c.baseline_avg := Option.some_injective _ hb'
      obtain rfl : vavg = c.vpn_avg := Option.some_injective _ hv'
      exact ⟨hoh, by rw [hoh]; exact hop⟩

/-- Witness for C1: the sample run with baseline average 20 ms and VPN
average 22 ms. -/
theorem analyze_latency_overhead_formula_witness :
    pingCmp.overhead_ms = 22 - 20 ∧
    pingCmp.overhead_percent = pingCmp.overhead_ms / 20 * 100 :=
  analyze_latency_overhead_formula sampleData [("ping_google", pingCmp)] "ping_google"
    pingCmp pingBase pingVpn 20 22
    (by decide) analyze_latency_sample
    (by rfl) (by rfl) (by rfl) (by rfl) (by norm_num) (by rfl)

/-- Claim C2: for every matched bandwidth pair (a test name present in
both mappings, with `baseline.mbps > 0`), the comparison entry produced
by `analyze_bandwidth` satisfies `bandwidth_ratio = vpn.mbps /
baseline.mbps` and `bandwidth_loss_percent = (1 − bandwidth_ratio) *
100`. -/
theorem analyze_bandwidth_ratio_formula (data : Data)
    (m : List (String × BandwidthComparison)) (k : String) (c : BandwidthComparison)
    (b v : TestRecord) (bmbps vmbps : ℚ)
    (hnd : (data.baseline.map Prod.fst).Nodup)
    (hok : analyze_bandwidth data = .ok m)
    (hb : data.baseline.lookup k = some b)
    (hv : data.vpn.lookup k = some v)
    (hbm : b.bandwidth_mbps = some bmbps)
    (hvm : v.bandwidth_mbps = some vmbps)
    (hpos : 0 < bmbps)
    (hc : m.lookup k = some c) :
    c.bandwidth_ratio_val = vmbps / bmbps ∧
    c.loss_percent_val = (1 - c.bandwidth_ratio_val) * 100 := by
  have hok' : joinLoop bandwidthEntry
      (data.vpn.filter fun kv => pyStartswith kv.1 "iperf_")
      (data.baseline.filter fun kv => pyStartswith kv.1 "iperf_") = .ok m := hok
  have hm := joinLoop_lookup bandwidthEntry
    (data.vpn.filter fun kv => pyStartswith kv.1 "iperf_")
    (keys_filter_sw_nodup "iperf_" hnd) hok' k
  rw [hc] at hm
  cases hp : pyStartswith k "iperf_" with
  | false =>
    rw [lookup_filter_sw_neg "iperf_" data.baseline k hp] at hm
    simp at hm
  | true =>
    rw [lookup_filter_sw_pos "iperf_" data.baseline k hp, hb,
        lookup_filter_sw_pos "iperf_" data.vpn k hp, hv] at hm
    simp only [Option.some_bind] at hm
    cases he : bandwidthEntry b v with
    | error e => rw [he] at hm; simp [Except.toOption] at hm
    | ok c0 =>
      rw [he] at hm
      simp only [Option.some_bind, Except.toOption, Option.some.injEq] at hm
      subst hm
      obtain ⟨hb', hv', hne, hr, hl, _⟩ := bandwidthEntry_ok_spec he
      rw [hbm] at hb'
      rw [hvm] at hv'
      obtain rfl : bmbps = c.baseline_mbps := Option.some_injective _ hb'
      obtain rfl : vmbps = c.vpn_mbps := Option.some_injective _ hv'
      exact ⟨hr, hl⟩

/-- Witness for C2: the sample run with baseline 500 Mbps and VPN 450
Mbps. -/
theorem analyze_bandwidth_ratio_formula_witness :
    iperfCmp.bandwidth_ratio_val = 450 / 500 ∧
    iperfCmp.loss_percent_val = (1 - iperfCmp.bandwidth_ratio_val) * 100 :=
  analyze_bandwidth_ratio_formula sampleData [("iperf_tcp", iperfCmp)] "iperf_tcp"
    iperfCmp iperfBase iperfVpn 500 450
    (by decide) analyze_bandwidth_sample
    (by rfl) (by rfl) (by rfl) (by rfl) (by norm_num) (by rfl)

/-- Claim C3: both analyses perform an inner join on test name — a
comparison entry exists for `k` exactly when `k` follows the `ping_` /
`iperf_` prefix convention and is present in both input mappings; a
name present on one side only yields no entry and no error. -/
theorem analyze_inner_join (data : Data)
    (mlat : List (String × LatencyComparison)) (mbw : List (String × BandwidthComparison))
    (k : String)
    (hnd : (data.baseline.map Prod.fst).Nodup)
    (hlat : analyze_latency data = .ok mlat)
    (hbw : analyze_bandwidth data = .ok mbw) :
    ((mlat.lookup k).isSome ↔
      pyStartswith k "ping_" = true ∧
        (data.baseline.lookup k).isSome ∧ (data.vpn.lookup k).isSome) ∧
    ((mbw.lookup k).isSome ↔
      pyStartswith k "iperf_" = true ∧
        (data.baseline.lookup k).isSome ∧ (data.vpn.lookup k).isSome) :=
  ⟨joinLoop_lookup_isSome_sw latencyEntry data "ping_" hnd hlat k,
   joinLoop_lookup_isSome_sw bandwidthEntry data "iperf_" hnd hbw k⟩

/-- Witness for C3: the sample run at the matched name `ping_google`. -/
theorem analyze_inner_join_witness :
    (([("ping_google", pingCmp)].lookup "ping_google").isSome ↔
      pyStartswith "ping_google" "ping_" = true ∧
        (sampleData.baseline.lookup "ping_google").isSome ∧
        (sampleData.vpn.lookup "ping_google").isSome) ∧
    (([("iperf_tcp", iperfCmp)].lookup "ping_google").isSome ↔
      pyStartswith "ping_google" "iperf_" = true ∧
        (sampleData.baseline.lookup "ping_google").isSome ∧
        (sampleData.vpn.lookup "ping_google").isSome) :=
  analyze_inner_join sampleData [("ping_google", pingCmp)] [("iperf_tcp", iperfCmp)]
    "ping_google" (by decide) analyze_latency_sample analyze_bandwidth_sample

/-- Claim C4: the latency rating written by the report is a function of
`overhead_percent` with strict upper bounds — `< 10` gives EXCELLENT,
`10 ≤ · < 25` gives GOOD, `≥ 25` gives NEEDS_IMPROVEMENT — and the
report assigns exactly this rating to every latency comparison. -/
theorem latencyRating_boundaries :
    (∀ x : ℚ, x < 10 → latencyRating x = .EXCELLENT) ∧
    (∀ x : ℚ, 10 ≤ x → x < 25 → latencyRating x = .GOOD) ∧
    (∀ x : ℚ, 25 ≤ x → latencyRating x = .NEEDS_IMPROVEMENT) ∧
    (∀ (lat : List (String × LatencyComparison)) (bw : List (String × BandwidthComparison)),
      (generate_summary_report lat bw).latencyRatings =
        lat.map fun kv => (kv.1, latencyRating kv.2.overhead_percent)) := by
  refine ⟨?_, ?_, ?_, ?_⟩
  · intro x hx
    rw [latencyRating, if_pos hx]
  · intro x h1 h2
    rw [latencyRating, if_neg (by linarith), if_pos h2]
  · intro x h1
    rw [latencyRating, if_neg (by linarith), if_neg (by linarith)]
  · intro lat bw
    rfl

/-- Witness for C4 at the boundary values 9.999, 10, 24.999 and 25. -/
theorem latencyRating_boundaries_witness :
    latencyRating 9.999 = .EXCELLENT ∧ latencyRating 10 = .GOOD ∧
    latencyRating 24.999 = .GOOD ∧ latencyRating 25 = .NEEDS_IMPROVEMENT :=
  ⟨latencyRating_boundaries.1 9.999 (by norm_num),
   latencyRating_boundaries.2.1 10 (by norm_num) (by norm_num),
   latencyRating_boundaries.2.1 24.999 (by norm_num) (by norm_num),
   latencyRating_boundaries.2.2.1 25 (by norm_num)⟩

/-- Claim C5: the bandwidth rating written by the report is a function
of the ratio with strict lower bounds — `> 0.8` gives EXCELLENT,
`0.6 < · ≤ 0.8` gives GOOD, `≤ 0.6` gives NEEDS_IMPROVEMENT — and the
report assigns exactly this rating to every bandwidth comparison. -/
theorem bandwidthRating_boundaries :
    (∀ x : ℚ, 0.8 < x → bandwidthRating x = .EXCELLENT) ∧
    (∀ x : ℚ, 0.6 < x → x ≤ 0.8 → bandwidthRating x = .GOOD) ∧
    (∀ x : ℚ, x ≤ 0.6 → bandwidthRating x = .NEEDS_IMPROVEMENT) ∧
    (∀ (lat : List (String × LatencyComparison)) (bw : List (String × BandwidthComparison)),
      (generate_summary_report lat bw).bandwidthRatings =
        bw.map fun kv => (kv.1, bandwidthRating kv.2.bandwidth_ratio_val)) := by
  refine ⟨?_, ?_, ?_, ?_⟩
  · intro x hx
    rw [bandwidthRating, if_pos hx]
  · intro x h1 h2
    rw [bandwidthRating, if_neg (not_lt.mpr h2), if_pos h1]
  · intro x h1
    rw [bandwidthRating, if_neg (not_lt.mpr (by linarith)), if_neg (not_lt.mpr h1)]
  · intro lat bw
    rfl

/-- Witness for C5 at the boundary values 0.8, 0.8001, 0.6 and 0.6001. -/
theorem bandwidthRating_boundaries_witness :
    bandwidthRating 0.8 = .GOOD ∧ bandwidthRating 0.8001 = .EXCELLENT ∧
    bandwidthRating 0.6 = .NEEDS_IMPROVEMENT ∧ bandwidthRating 0.6001 = .GOOD :=
  ⟨bandwidthRating_boundaries.2.1 0.8 (by norm_num) (by norm_num),
   bandwidthRating_boundaries.1 0.8001 (by norm_num),
   bandwidthRating_boundaries.2.2.1 0.6 (by norm_num),
   bandwidthRating_boundaries.2.1 0.6001 (by norm_num) (by norm_num)⟩

/-- Claim C6: with at least one latency and one bandwidth comparison the
overall assessment is `overallRating` of the two `np.mean` averages —
EXCELLENT when the mean overhead is `< 10` and the mean ratio `> 0.8`,
else GOOD when `< 25` and `> 0.6`, else NEEDS_IMPROVEMENT; with either
mapping empty no rating is produced (the report says "insufficient
data"). -/
theorem overall_assessment_rule (lat : List (String × LatencyComparison))
    (bw : List (String × BandwidthComparison)) :
    ((lat = [] ∨ bw = []) → (generate_summary_report lat bw).overall = none) ∧
    (lat ≠ [] → bw ≠ [] →
      (generate_summary_report lat bw).overall =
        some (overallRating (npMean (lat.map fun kv => kv.2.overhead_percent))
          (npMean (bw.map fun kv => kv.2.bandwidth_ratio_val)))) ∧
    (∀ aL aB : ℚ,
      ((aL < 10 ∧ aB > 0.8) → overallRating aL aB = .EXCELLENT) ∧
      (¬(aL < 10 ∧ aB > 0.8) → (aL < 25 ∧ aB > 0.6) → overallRating aL aB = .GOOD) ∧
      (¬(aL < 10 ∧ aB > 0.8) → ¬(aL < 25 ∧ aB > 0.6) →
        overallRating aL aB = .NEEDS_IMPROVEMENT)) := by
  refine ⟨?_, ?_, ?_⟩
  · intro h
    rcases h with rfl | rfl <;> simp [generate_summary_report]
  · intro h1 h2
    have e1 : lat.isEmpty = false := by
      simpa using h1
    have e2 : bw.isEmpty = false := by
      simpa using h2
    simp [generate_summary_report, e1, e2]
  · intro aL aB
    refine ⟨?_, ?_, ?_⟩
    · intro h
      rw [overallRating, if_pos h]
    · intro h1 h2
      rw [overallRating, if_neg h1, if_pos h2]
    · intro h1 h2
      rw [overallRating, if_neg h1, if_neg h2]

/-- A bare latency comparison with 5% overhead and a bare bandwidth
comparison with ratio 0.85, used to exercise the overall rating. -/
def latCmp5 : LatencyComparison :=
  { baseline_avg := 0, vpn_avg := 0, overhead_ms := 0, overhead_percent := 5,
    baseline_min := 0, baseline_max := 0, vpn_min := 0, vpn_max := 0,
    baseline_loss := 0, vpn_loss := 0 }

def bwCmp85 : BandwidthComparison :=
  { baseline_mbps := 0, vpn_mbps := 0, bandwidth_ratio_val := 0.85,
    loss_percent_val := 0, direction := "unknown" }

/-- Witness for C6: empty input gives no overall rating; average
overhead 5% with average ratio 0.85 gives EXCELLENT. -/
theorem overall_assessment_rule_witness :
    (generate_summary_report [] []).overall = none ∧
    (generate_summary_report [("ping_a", latCmp5)] [("iperf_a", bwCmp85)]).overall =
      some Rating.EXCELLENT := by
  constructor
  · exact (overall_assessment_rule [] []).1 (Or.inl rfl)
  · have h2 := (overall_assessment_rule [("ping_a", latCmp5)] [("iperf_a", bwCmp85)]).2.1
      (by simp) (by simp)
    have h3 := ((overall_assessment_rule [("ping_a", latCmp5)] [("iperf_a", bwCmp85)]).2.2
      (npMean ([("ping_a", latCmp5)].map fun kv => kv.2.overhead_percent))
      (npMean ([("iperf_a", bwCmp85)].map fun kv => kv.2.bandwidth_ratio_val))).1
      (by norm_num [npMean, latCmp5, bwCmp85])
    rw [h2, h3]

/-- A baseline latency record whose average is 0 ms. -/
def zeroPingBase : TestRecord :=
  { avg_ping_ms := some 0, min_ping_ms := some 0, max_ping_ms := some 0,
    packet_loss_percent := some 0, bandwidth_mbps := none, direction := none }

/-- A run whose only matched latency pair has baseline average 0. -/
def zeroData : Data :=
  { baseline := [("ping_zero", zeroPingBase)]
    vpn := [("ping_zero", pingVpn)] }

/-- Claim C7 counterexample: on a matched pair with baseline average 0
the division is NOT handled — `analyze_latency` raises an unguarded
`ZeroDivisionError` instead of excluding the pair or producing a
documented value. -/
theorem analyze_latency_zero_division_cex :
    analyze_latency zeroData = .error .zeroDivisionError := by
  have h1 : pyStartswith "ping_zero" "ping_" = true := by decide
  have h5 : ("ping_zero" == "ping_zero") = true := by decide
  simp [analyze_latency, zeroData, List.filter_cons, List.filter_nil, h1,
    joinLoop, List.lookup_cons, h5, latencyEntry, getField, zeroPingBase, pingVpn,
    pyDiv]

/-- Claim C7 (amended): the zero-baseline case is unguarded — whenever a
matched, prefix-matching pair has baseline `avg_ping_ms` (respectively
`bandwidth_mbps`) equal to 0, the analysis raises and returns no result
mapping at all; the pair is not excluded and no Infinity/NaN value is
propagated. -/
theorem zero_baseline_aborts_analysis :
    (∀ (data : Data) (k : String) (b v : TestRecord),
      data.baseline.lookup k = some b → data.vpn.lookup k = some v →
      pyStartswith k "ping_" = true → b.avg_ping_ms = some 0 →
      ∀ m : List (String × LatencyComparison), analyze_latency data ≠ .ok m) ∧
    (∀ (data : Data) (k : String) (b v : TestRecord),
      data.baseline.lookup k = some b → data.vpn.lookup k = some v →
      pyStartswith k "iperf_" = true → b.bandwidth_mbps = some 0 →
      ∀ m : List (String × BandwidthComparison), analyze_bandwidth data ≠ .ok m) := by
  constructor
  · intro data k b v hb hv hk h0 m hok
    have hbf : (data.baseline.filter fun kv => pyStartswith kv.1 "ping_").lookup k
        = some b := by
      rw [lookup_filter_sw_pos "ping_" data.baseline k hk]
      exact hb
    have hvf : (data.vpn.filter fun kv => pyStartswith kv.1 "ping_").lookup k
        = some v := by
      rw [lookup_filter_sw_pos "ping_" data.vpn k hk]
      exact hv
    obtain ⟨c, hc⟩ := joinLoop_entry_ok latencyEntry _ hok (lookup_mem hbf) hvf
    exact latencyEntry_zero h0 c hc
  · intro data k b v hb hv hk h0 m hok
    have hbf : (data.baseline.filter fun kv => pyStartswith kv.1 "iperf_").lookup k
        = some b := by
      rw [lookup_filter_sw_pos "iperf_" data.baseline k hk]
      exact hb
    have hvf : (data.vpn.filter fun kv => pyStartswith kv.1 "iperf_").lookup k
        = some v := by
      rw [lookup_filter_sw_pos "iperf_" data.vpn k hk]
      exact hv
    obtain ⟨c, hc⟩ := joinLoop_entry_ok bandwidthEntry _ hok (lookup_mem hbf) hvf
    exact bandwidthEntry_zero h0 c hc

/-- Witness for the amended C7 at the concrete zero-baseline run. -/
theorem zero_baseline_aborts_analysis_witness :
    analyze_latency zeroData ≠ .ok [] :=
  zero_baseline_aborts_analysis.1 zeroData "ping_zero" zeroPingBase pingVpn
    (by rfl) (by rfl) (by decide) (by rfl) []

/-- The empty `data` dictionary. -/
def emptyData : Data := { baseline := [], vpn := [] }

/-- Claim C8: on empty input mappings both analyses return empty
comparison mappings without raising, and the report produces no overall
rating (the "insufficient data" line) and prints the per-section
"no data available" notices. -/
theorem empty_inputs_behavior :
    analyze_latency emptyData = .ok [] ∧
    analyze_bandwidth emptyData = .ok [] ∧
    (generate_summary_report [] []).overall = none ∧
    (generate_summary_report [] []).latencyNoData = true ∧
    (generate_summary_report [] []).bandwidthNoData = true :=
  ⟨rfl, rfl, rfl, rfl, rfl⟩

/-- Claim C9: the `direction` of every bandwidth comparison entry is the
baseline record's `direction` when present and `"unknown"` otherwise,
and `bandwidthEntry` never reads the VPN record's `direction`. -/
theorem bandwidth_direction_from_baseline (data : Data)
    (m : List (String × BandwidthComparison)) (k : String)
    (c : BandwidthComparison) (b : TestRecord)
    (v' : TestRecord) (d : Option String)
    (hnd : (data.baseline.map Prod.fst).Nodup)
    (hok : analyze_bandwidth data = .ok m)
    (hb : data.baseline.lookup k = some b)
    (hc : m.lookup k = some c) :
    c.direction = b.direction.getD "unknown" ∧
    bandwidthEntry b { v' with direction := d } = bandwidthEntry b v' := by
  constructor
  · have hok' : joinLoop bandwidthEntry
        (data.vpn.filter fun kv => pyStartswith kv.1 "iperf_")
        (data.baseline.filter fun kv => pyStartswith kv.1 "iperf_") = .ok m := hok
    have hm := joinLoop_lookup bandwidthEntry
      (data.vpn.filter fun kv => pyStartswith kv.1 "iperf_")
      (keys_filter_sw_nodup "iperf_" hnd) hok' k
    rw [hc] at hm
    cases hp : pyStartswith k "iperf_" with
    | false =>
      rw [lookup_filter_sw_neg "iperf_" data.baseline k hp] at hm
      simp at hm
    | true =>
      rw [lookup_filter_sw_pos "iperf_" data.baseline k hp, hb] at hm
      simp only [Option.some_bind] at hm
      rcases hvf : (data.vpn.filter fun kv => pyStartswith kv.1 "iperf_").lookup k
        with _ | v
      · rw [hvf] at hm
        simp at hm
      rw [hvf] at hm
      simp only [Option.some_bind] at hm
      cases he : bandwidthEntry b v with
      | error e =>
        rw [he] at hm
        simp [Except.toOption] at hm
      | ok c0 =>
        rw [he] at hm
        simp only [Except.toOption, Option.some.injEq] at hm
        subst hm
        exact (bandwidthEntry_ok_spec he).2.2.2.2.2
  · rfl

/-- Witness for C9 at the sample run: the entry's direction is the
baseline record's `"download"`, and overriding the VPN record's
direction does not change the computed entry. -/
theorem bandwidth_direction_from_baseline_witness :
    iperfCmp.direction = iperfBase.direction.getD "unknown" ∧
    bandwidthEntry iperfBase { iperfVpn with direction := some "weird" } =
      bandwidthEntry iperfBase iperfVpn :=
  bandwidth_direction_from_baseline sampleData [("iperf_tcp", iperfCmp)] "iperf_tcp"
    iperfCmp iperfBase iperfVpn (some "weird")
    (by decide) analyze_bandwidth_sample (by rfl) (by rfl)

/-- Claim C10: the analyses do not mutate their input — running the
state-passing forms returns the caller's `data` store unchanged, and the
returned mapping is exactly the freshly built value that the pure
functions compute from the input. -/
theorem analyzers_do_not_mutate_input (store : Data)
    (out₁ : Data × List (String × LatencyComparison))
    (out₂ : Data × List (String × BandwidthComparison))
    (h₁ : analyze_latency_st store = .ok out₁)
    (h₂ : analyze_bandwidth_st store = .ok out₂) :
    out₁.1 = store ∧ out₂.1 = store ∧
    analyze_latency store = .ok out₁.2 ∧ analyze_bandwidth store = .ok out₂.2 := by
  obtain ⟨hs₁, r₁, hr₁, ha₁⟩ := (joinLoopSt_ok_iff latencyEntry _ _ store [] out₁).mp h₁
  obtain ⟨hs₂, r₂, hr₂, ha₂⟩ := (joinLoopSt_ok_iff bandwidthEntry _ _ store [] out₂).mp h₂
  have hb₁ : out₁.2 = r₁ := by simpa using ha₁
  have hb₂ : out₂.2 = r₂ := by simpa using ha₂
  exact ⟨hs₁, hs₂, by rw [hb₁]; exact hr₁, by rw [hb₂]; exact hr₂⟩

/-- Witness for C10 at the sample run. -/
theorem analyzers_do_not_mutate_input_witness :
    (sampleData, [("ping_google", pingCmp)]).1 = sampleData ∧
    (sampleData, [("iperf_tcp", iperfCmp)]).1 = sampleData ∧
    analyze_latency sampleData = .ok (sampleData, [("ping_google", pingCmp)]).2 ∧
    analyze_bandwidth sampleData = .ok (sampleData, [("iperf_tcp", iperfCmp)]).2 :=
  analyzers_do_not_mutate_input sampleData
    (sampleData, [("ping_google", pingCmp)]) (sampleData, [("iperf_tcp", iperfCmp)])
    ((joinLoopSt_ok_iff latencyEntry _ _ sampleData [] _).mpr
      ⟨rfl, [("ping_google", pingCmp)], analyze_latency_sample, by simp⟩)
    ((joinLoopSt_ok_iff bandwidthEntry _ _ sampleData [] _).mpr
      ⟨rfl, [("iperf_tcp", iperfCmp)], analyze_bandwidth_sample, by simp⟩)

end VPNTesting
